import Mathlib

/-!
Verification of the VitalWeather Gundi integration connector against its
natural-language specification.

The development is a shallow embedding of the repository sources:
  app/actions/client.py          (typed response models, error taxonomy, client operations)
  app/actions/handlers.py        (transforms and the four action handlers)
  app/actions/configurations.py  (action configurations)
Parts of the system that the repository delegates to collaborators outside
these files (the watermark store pattern, the batching utility, the retry
decorator) are modelled from the specification and are marked as such in
their doc comments.
-/

namespace VitalWeather

/-! ## Python value model

The transforms in handlers.py operate on `dict` views of pydantic models.
We embed those dictionaries as association lists of string keys to a small
universe of Python values.  Python floats occur in these code paths only as
values to be formatted into strings (the transforms never do arithmetic on
them), so a float is carried by its decimal rendering. -/

/-- A naive-or-aware Python datetime: `wall` is the wall-clock instant in
seconds (the value `datetime.timestamp` would give if the wall clock were
read as UTC), `tz` is the utcoffset in seconds, `none` when naive. -/
structure PyDatetime where
  wall : Int
  tz : Option Int
deriving DecidableEq, Repr

/-- Values stored in the embedded Python dictionaries. -/
inductive PyVal where
  | pint (n : Int)
  | pbool (b : Bool)
  | pfloat (s : String)
  | pstr (s : String)
  | pdt (t : PyDatetime)
  | plist (vs : List PyVal)
deriving Repr

/-- Zero-pad a natural number to two digits, as `strftime` does. -/
def pad2 (n : Nat) : String :=
  if n < 10 then "0" ++ toString n else toString n

/-- Zero-pad a year to four digits. -/
def pad4 (n : Int) : String :=
  if n < 10 then "000" ++ toString n
  else if n < 100 then "00" ++ toString n
  else if n < 1000 then "0" ++ toString n
  else toString n

/-- Gregorian civil date from a day count relative to 1970-01-01
(the standard era-based algorithm, with floor division so it is total). -/
def civilFromDays (z0 : Int) : Int × Nat × Nat :=
  let z := z0 + 719468
  let era : Int := Int.fdiv z 146097
  let doe : Nat := (z - era * 146097).toNat
  let yoe : Nat := (doe - doe / 1460 + doe / 36524 - doe / 146096) / 365
  let y : Int := (yoe : Int) + era * 400
  let doy : Nat := doe - (365 * yoe + yoe / 4 - yoe / 100)
  let mp : Nat := (5 * doy + 2) / 153
  let d : Nat := doy - (153 * mp + 2) / 5 + 1
  let m : Nat := if mp < 10 then mp + 3 else mp - 9
  (if m ≤ 2 then y + 1 else y, m, d)

/-- Render a utcoffset the way `datetime.isoformat` and `str` do. -/
def tzSuffix (off : Int) : String :=
  if off ≥ 0 then "+" ++ pad2 (off.toNat / 3600) ++ ":" ++ pad2 (off.toNat % 3600 / 60)
  else "-" ++ pad2 ((-off).toNat / 3600) ++ ":" ++ pad2 ((-off).toNat % 3600 / 60)

/-- Python `str` of a datetime: `YYYY-MM-DD HH:MM:SS` with a utcoffset
suffix when aware. -/
def pyDtStr (t : PyDatetime) : String :=
  let days := Int.fdiv t.wall 86400
  let secs := (t.wall - days * 86400).toNat
  let ymd := civilFromDays days
  let base := pad4 ymd.1 ++ "-" ++ pad2 ymd.2.1 ++ "-" ++ pad2 ymd.2.2 ++ " " ++
    pad2 (secs / 3600) ++ ":" ++ pad2 (secs % 3600 / 60) ++ ":" ++ pad2 (secs % 60)
  match t.tz with
  | none => base
  | some off => base ++ tzSuffix off

mutual
/-- Python `repr` of a value (used by `str` on lists). -/
def pyRepr : PyVal → String
  | .pint n => toString n
  | .pbool b => if b then "True" else "False"
  | .pfloat s => s
  | .pstr s => "\x27" ++ s ++ "\x27"
  | .pdt t => "datetime(" ++ pyDtStr t ++ ")"
  | .plist vs => "[" ++ String.intercalate ", " (pyReprList vs) ++ "]"
/-- Pointwise `repr` of a list of values. -/
def pyReprList : List PyVal → List String
  | [] => []
  | v :: vs => pyRepr v :: pyReprList vs
end

/-- Python `str` of a value, as interpolated by an f-string. -/
def pyStr : PyVal → String
  | .pstr s => s
  | .pdt t => pyDtStr t
  | v => pyRepr v

/-- An embedded Python dictionary with string keys.  The dictionaries built
below from the pydantic models list each field once, in declaration order,
mirroring insertion order of `BaseModel.dict()`. -/
abbrev PyDict := List (String × PyVal)

/-- Python `key in d`. -/
def dictContains (d : PyDict) (k : String) : Bool :=
  d.any (fun kv => kv.1 == k)

/-- Python `d[key]` as an option. -/
def dictGet (d : PyDict) (k : String) : Option PyVal :=
  (d.find? (fun kv => kv.1 == k)).map (fun kv => kv.2)

/-- Python `d[key]` with a fallback (used only where the source guarantees
the key is present). -/
def dictGetD (d : PyDict) (k : String) (v : PyVal) : PyVal :=
  (dictGet d k).getD v

/-- Python `d.pop(key)`: the dictionary without the key, order preserved. -/
def dictErase (d : PyDict) (k : String) : PyDict :=
  d.filter (fun kv => kv.1 != k)

/-! ## Typed response models (app/actions/client.py)

Each pydantic model becomes a structure with the same fields in the same
order; `toDict` is its `.dict()` view.  The `parse_time_string` validator
is shared verbatim by `StationsResponse`, `ConditionsItem`,
`ConditionsResponse` and `DailySummaryResponse`. -/

/-- Decimal rendering of a Python float (see module comment on `PyVal`). -/
abbrev PyFloat := String

/-- Model `Station` of client.py. -/
structure Station where
  Station_ID : Int
  Station_Name : String
  latitude : PyFloat
  longitude : PyFloat
  height : PyFloat
deriving DecidableEq, Repr

/-- The shared pydantic validator: a naive datetime gets `tzinfo` set to
UTC by `replace`, an aware one is returned unchanged. -/
def parse_time_string (v : PyDatetime) : PyDatetime :=
  if v.tz.isNone then { v with tz := some 0 } else v

/-- Raw JSON envelope of the stations endpoint before validators run. -/
structure StationsBody where
  stations : List Station
  generated_at : PyDatetime
  code : Int
  message : String
deriving DecidableEq, Repr

/-- Model `StationsResponse` of client.py (after validation). -/
structure StationsResponse where
  stations : List Station
  generated_at : PyDatetime
  code : Int
  message : String
deriving DecidableEq, Repr

/-- Effect of `StationsResponse.parse_obj`: the `generated_at` validator. -/
def StationsResponse.parse_obj (b : StationsBody) : StationsResponse :=
  { stations := b.stations
    generated_at := parse_time_string b.generated_at
    code := b.code
    message := b.message }

/-- Model `ConditionsItem` of client.py.  The `ts` field carries the value
after the per-item `parse_time_string` validator when the item comes out of
`ConditionsResponse.parse_obj`. -/
structure ConditionsItem where
  station_id : Int
  station_Name : String
  ts : PyDatetime
  pressure : PyFloat
  temperature : PyFloat
  humidity : Int
  wind_average : PyFloat
  max_wind : PyFloat
  wind_direction : Int
  total_rain : PyFloat
  FDI : Int
  solar_radiation : PyFloat
deriving DecidableEq, Repr

/-- The `.dict()` view of a `ConditionsItem`, fields in declaration order. -/
def ConditionsItem.toDict (c : ConditionsItem) : PyDict :=
  [("station_id", .pint c.station_id),
   ("station_Name", .pstr c.station_Name),
   ("ts", .pdt c.ts),
   ("pressure", .pfloat c.pressure),
   ("temperature", .pfloat c.temperature),
   ("humidity", .pint c.humidity),
   ("wind_average", .pfloat c.wind_average),
   ("max_wind", .pfloat c.max_wind),
   ("wind_direction", .pint c.wind_direction),
   ("total_rain", .pfloat c.total_rain),
   ("FDI", .pint c.FDI),
   ("solar_radiation", .pfloat c.solar_radiation)]

/-- Model `Units` of client.py: the unit label table of the conditions
endpoint.  Note it has an entry for `ts` and none for `max_wind`. -/
structure Units where
  local_time_last_update : String
  ts : String
  temperature : String
  humidity : String
  pressure : String
  wind_average : String
  wind_direction : String
  total_rain : String
  solar_radiation : String
  FDI : String
deriving DecidableEq, Repr

/-- The `.dict()` view of `Units`, fields in declaration order. -/
def Units.toDict (u : Units) : PyDict :=
  [("local_time_last_update", .pstr u.local_time_last_update),
   ("ts", .pstr u.ts),
   ("temperature", .pstr u.temperature),
   ("humidity", .pstr u.humidity),
   ("pressure", .pstr u.pressure),
   ("wind_average", .pstr u.wind_average),
   ("wind_direction", .pstr u.wind_direction),
   ("total_rain", .pstr u.total_rain),
   ("solar_radiation", .pstr u.solar_radiation),
   ("FDI", .pstr u.FDI)]

/-- Raw JSON envelope of the conditions endpoint (alias `unites`). -/
structure ConditionsBody where
  conditions : List ConditionsItem
  units : Units
  generated_at : PyDatetime
  code : Int
  message : String
deriving DecidableEq, Repr

/-- Model `ConditionsResponse` of client.py (after validation). -/
structure ConditionsResponse where
  conditions : List ConditionsItem
  units : Units
  generated_at : PyDatetime
  code : Int
  message : String
deriving DecidableEq, Repr

/-- Effect of `ConditionsResponse.parse_obj`: `parse_time_string` runs on
`generated_at` and on the `ts` field of every item. -/
def ConditionsResponse.parse_obj (b : ConditionsBody) : ConditionsResponse :=
  { conditions := b.conditions.map (fun c => { c with ts := parse_time_string c.ts })
    units := b.units
    generated_at := parse_time_string b.generated_at
    code := b.code
    message := b.message }

/-- Model `DailySummaryItem` of client.py.  `avg_winddirection` is a mixed
int-or-string list. -/
structure DailySummaryItem where
  station_id : Int
  Date : String
  rain : PyFloat
  avg_temp : PyFloat
  min_temp : PyFloat
  max_temp : PyFloat
  avg_RH : Int
  min_RH : Int
  max_RH : Int
  avg_wind : PyFloat
  avg_solar : Int
  avg_pressure : PyFloat
  min_pressure : PyFloat
  max_pressure : PyFloat
  avg_winddirection : List PyVal
deriving Repr

/-- The `.dict()` view of a `DailySummaryItem`, fields in declaration
order. -/
def DailySummaryItem.toDict (s : DailySummaryItem) : PyDict :=
  [("station_id", .pint s.station_id),
   ("Date", .pstr s.Date),
   ("rain", .pfloat s.rain),
   ("avg_temp", .pfloat s.avg_temp),
   ("min_temp", .pfloat s.min_temp),
   ("max_temp", .pfloat s.max_temp),
   ("avg_RH", .pint s.avg_RH),
   ("min_RH", .pint s.min_RH),
   ("max_RH", .pint s.max_RH),
   ("avg_wind", .pfloat s.avg_wind),
   ("avg_solar", .pint s.avg_solar),
   ("avg_pressure", .pfloat s.avg_pressure),
   ("min_pressure", .pfloat s.min_pressure),
   ("max_pressure", .pfloat s.max_pressure),
   ("avg_winddirection", .plist s.avg_winddirection)]

/-- Model `DailySummaryUnits` of client.py.  Note it has entries `max_hum`
and `min_hum` while the summary items carry `max_RH` and `min_RH`, and it
has no `ts` or `Date` entry. -/
structure DailySummaryUnits where
  rain : String
  avg_temp : String
  max_temp : String
  min_temp : String
  avg_RH : String
  max_hum : String
  min_hum : String
  avg_wind : String
  avg_solar : String
  avg_pressure : String
  min_pressure : String
  max_pressure : String
  avg_winddirection : List String
deriving DecidableEq, Repr

/-- The `.dict()` view of `DailySummaryUnits`, fields in declaration
order. -/
def DailySummaryUnits.toDict (u : DailySummaryUnits) : PyDict :=
  [("rain", .pstr u.rain),
   ("avg_temp", .pstr u.avg_temp),
   ("max_temp", .pstr u.max_temp),
   ("min_temp", .pstr u.min_temp),
   ("avg_RH", .pstr u.avg_RH),
   ("max_hum", .pstr u.max_hum),
   ("min_hum", .pstr u.min_hum),
   ("avg_wind", .pstr u.avg_wind),
   ("avg_solar", .pstr u.avg_solar),
   ("avg_pressure", .pstr u.avg_pressure),
   ("min_pressure", .pstr u.min_pressure),
   ("max_pressure", .pstr u.max_pressure),
   ("avg_winddirection", .plist (u.avg_winddirection.map .pstr))]

/-- Raw JSON envelope of the daily summary endpoint (alias `unites`). -/
structure DailySummaryBody where
  dailysummary : List DailySummaryItem
  units : DailySummaryUnits
  generated_at : PyDatetime
  code : Int
  message : String
deriving Repr

/-- Model `DailySummaryResponse` of client.py (after validation). -/
structure DailySummaryResponse where
  dailysummary : List DailySummaryItem
  units : DailySummaryUnits
  generated_at : PyDatetime
  code : Int
  message : String
deriving Repr

/-- Effect of `DailySummaryResponse.parse_obj`: the `generated_at`
validator (the summary items carry no datetime field). -/
def DailySummaryResponse.parse_obj (b : DailySummaryBody) : DailySummaryResponse :=
  { dailysummary := b.dailysummary
    units := b.units
    generated_at := parse_time_string b.generated_at
    code := b.code
    message := b.message }

/-! ## Transforms (app/actions/handlers.py) -/

/-- The nested `match_units` helper shared (verbatim, per record) by
`transform` and `transform_daily_summary`: every field whose key is in the
units table and is not `ts` is replaced by the f-string
`"{value} {units[key]}"`; all other fields are left untouched. -/
def match_units (conditions : PyDict) (units : PyDict) : PyDict :=
  conditions.map fun kv =>
    if dictContains units kv.1 && kv.1 != "ts" then
      (kv.1, .pstr (pyStr kv.2 ++ " " ++ pyStr (dictGetD units kv.1 (.pstr ""))))
    else kv

/-- Canonical observation produced by `transform`. -/
structure Observation where
  source_name : String
  source : Int
  type : String
  subtype : String
  recorded_at : PyVal
  location_lat : PyFloat
  location_lon : PyFloat
  additional : PyDict
deriving Repr

/-- The `transform` generator of handlers.py, materialized: decorate each
condition record with units, pop `ts` into `recorded_at`, and wrap the rest
under `additional` together with the station height.  The `dictGetD`
fallback is unreachable: `ts` is a mandatory field of `ConditionsItem`, so
the pop always finds it. -/
def transform (station : Station) (observations : ConditionsResponse) : List Observation :=
  let readings := (observations.conditions.map ConditionsItem.toDict).map
    (fun r => match_units r observations.units.toDict)
  readings.map fun reading =>
    { source_name := station.Station_Name
      source := station.Station_ID
      type := "stationary-object"
      subtype := "weather_station"
      recorded_at := dictGetD reading "ts" (.pstr "")
      location_lat := station.latitude
      location_lon := station.longitude
      additional := ("station_height", .pfloat station.height) :: dictErase reading "ts" }

/-- Whether a year is a Gregorian leap year. -/
def isLeap (y : Nat) : Bool :=
  y % 4 == 0 && (y % 100 != 0 || y % 400 == 0)

/-- Days in a Gregorian month. -/
def daysInMonth (y m : Nat) : Nat :=
  if m == 2 then (if isLeap y then 29 else 28)
  else if m == 4 || m == 6 || m == 9 || m == 11 then 30
  else 31

/-- Day count of a civil date relative to 1970-01-01 (valid for years from
1, i.e. the whole `strptime` range). -/
def daysFromCivil (y m d : Nat) : Int :=
  let yy : Nat := if m ≤ 2 then y - 1 else y
  let era : Nat := yy / 400
  let yoe : Nat := yy - era * 400
  let mp : Nat := (m + 9) % 12
  let doy : Nat := (153 * mp + 2) / 5 + d - 1
  let doe : Nat := yoe * 365 + yoe / 4 - yoe / 100 + doy
  (era : Int) * 146097 + (doe : Int) - 719468

/-- Split a character list on the dash separator (structural version of
splitting the date string on `-`). -/
def splitDash : List Char → List (List Char)
  | [] => [[]]
  | c :: cs =>
    if c = Char.ofNat 45 then [] :: splitDash cs
    else
      match splitDash cs with
      | [] => [[c]]
      | g :: gs => (c :: g) :: gs

/-- Parse a non-empty all-digit group as a number, as `strptime` reads the
`%Y`, `%m` and `%d` fields. -/
def digitsToNat : List Char → Option Nat
  | [] => none
  | l => l.foldl
      (fun acc c => acc.bind fun a =>
        if c.isDigit then some (a * 10 + (c.toNat - 48)) else none)
      (some 0)

/-- Python `datetime.strptime(s, "%Y-%m-%d")`: a naive datetime at midnight
of the parsed date, `none` when the string does not match the format (the
call raises `ValueError`). -/
def strptime_date (s : String) : Option PyDatetime :=
  match splitDash s.data with
  | [ys, ms, ds] =>
    match digitsToNat ys, digitsToNat ms, digitsToNat ds with
    | some y, some m, some d =>
      if 1 ≤ y && y ≤ 9999 && 1 ≤ m && m ≤ 12 && 1 ≤ d && d ≤ daysInMonth y m then
        some { wall := daysFromCivil y m d * 86400, tz := none }
      else none
    | _, _, _ => none
  | _ => none

/-- Canonical event produced by `transform_daily_summary`. -/
structure SummaryEvent where
  title : String
  event_type : String
  recorded_at : PyDatetime
  location_lat : PyFloat
  location_lon : PyFloat
  event_details : PyDict
deriving Repr

/-- The `transform_daily_summary` generator of handlers.py, materialized:
decorate the summary record with units and yield one event whose
`recorded_at` is the `Date` string parsed with `strptime` and stamped UTC
by `replace(tzinfo=utc)`.  `none` models the `ValueError` that `strptime`
raises on a malformed date. -/
def transform_daily_summary (summary : DailySummaryItem) (units : DailySummaryUnits)
    (station : Station) : Option SummaryEvent :=
  let readings := match_units summary.toDict units.toDict
  (strptime_date summary.Date).map fun t =>
    { title := "Station " ++ toString summary.station_id ++ " Summary (" ++ summary.Date ++ ")"
      event_type := "weather_station_summary"
      recorded_at := { t with tz := some 0 }
      location_lat := station.latitude
      location_lon := station.longitude
      event_details := readings }

/-! ## Client operations (app/actions/client.py)

Each operation receives an HTTP response and either returns a parsed
response, returns the raw text (when the JSON body is falsy), or raises.
`body = none` models a successful `response.json()` whose result is a
Python-falsy value (`null`, `{}`, `[]`, ...); in that case the source
returns `response.text`.  `raise_for_status` runs before the body is
examined, so for an error status the body is never consulted. -/

/-- An HTTP response as the client functions inspect it: status code, the
parsed JSON envelope when truthy, and the raw text. -/
structure HttpResponse (β : Type) where
  status : Nat
  body : Option β
  text : String

/-- Outcome of one client call: the `ok`/`rawText` returns and the raised
exceptions (`VWUnauthorizedException`, `VWNotFoundException`,
`VWException`, re-raised `httpx.HTTPStatusError`). -/
inductive ClientOutcome (α : Type) where
  | ok (v : α)
  | rawText (text : String)
  | vwUnauthorized (message : String)
  | vwNotFound (message : String)
  | vwException (code : Int) (message : String)
  | httpStatusError (status : Nat)
deriving Repr

/-- The `get_stations` operation of client.py. -/
def get_stations (response : HttpResponse StationsBody) : ClientOutcome StationsResponse :=
  if 400 ≤ response.status then
    if response.status == 401 then .vwUnauthorized "Unauthorized access"
    else if response.status == 404 then .vwNotFound "User not found"
    else .httpStatusError response.status
  else
    match response.body with
    | some parsed =>
      if parsed.code ≠ 200 then .vwException parsed.code parsed.message
      else .ok (StationsResponse.parse_obj parsed)
    | none => .rawText response.text

/-- The `get_station_conditions` operation of client.py. -/
def get_station_conditions (response : HttpResponse ConditionsBody) :
    ClientOutcome ConditionsResponse :=
  if 400 ≤ response.status then
    if response.status == 401 then .vwUnauthorized "Unauthorized access"
    else if response.status == 404 then .vwNotFound "User not found"
    else .httpStatusError response.status
  else
    match response.body with
    | some parsed =>
      if parsed.code ≠ 200 then .vwException parsed.code parsed.message
      else .ok (ConditionsResponse.parse_obj parsed)
    | none => .rawText response.text

/-- The `get_daily_summary` operation of client.py. -/
def get_daily_summary (response : HttpResponse DailySummaryBody) :
    ClientOutcome DailySummaryResponse :=
  if 400 ≤ response.status then
    if response.status == 401 then .vwUnauthorized "Unauthorized access"
    else if response.status == 404 then .vwNotFound "User not found"
    else .httpStatusError response.status
  else
    match response.body with
    | some parsed =>
      if parsed.code ≠ 200 then .vwException parsed.code parsed.message
      else .ok (DailySummaryResponse.parse_obj parsed)
    | none => .rawText response.text

/-! ## Action handlers (app/actions/handlers.py)

The handlers are modelled as functions of the client outcome (the awaited
fetch) and, where relevant, of the downstream sender.  Python truthiness of
the client result decides the branches: a parsed pydantic response is
always truthy, the raw text is truthy exactly when non-empty.  A truthy raw
text reaches an attribute access on a `str` (`response.stations`,
`conditions_response.conditions`, `daily_summary.dailysummary`), which
raises `AttributeError`. -/

/-- Which of the three VW exception classes was raised. -/
inductive VWKind where
  | unauthorized
  | notFound
  | api
deriving DecidableEq, Repr

/-- What a handler invocation does: return a result dictionary or let an
exception propagate. -/
inductive HandlerOutcome where
  | returns (d : PyDict)
  | raisesVW (kind : VWKind) (status : Int) (message : String)
  | raisesHttp (status : Nat)
  | raisesOther (kind : String)
deriving Repr

/-- The `action_auth` handler. -/
def action_auth (fetch : ClientOutcome StationsResponse) : HandlerOutcome :=
  match fetch with
  | .ok _ => .returns [("valid_credentials", .pbool true)]
  | .rawText s =>
    if s == "" then
      .returns [("valid_credentials", .pbool false), ("message", .pstr "Bad credentials")]
    else
      .returns [("valid_credentials", .pbool true)]
  | .vwUnauthorized m =>
    .returns [("valid_credentials", .pbool false), ("status_code", .pint 401), ("message", .pstr m)]
  | .vwNotFound m =>
    .returns [("valid_credentials", .pbool false), ("status_code", .pint 404), ("message", .pstr m)]
  | .vwException c m =>
    .returns [("valid_credentials", .pbool false), ("status_code", .pint c), ("message", .pstr m)]
  | .httpStatusError s =>
    .returns [("error", .pbool true), ("status_code", .pint s)]

/-- Model `PullStationConditionsConfig` of configurations.py. -/
structure PullStationConditionsConfig where
  station : Station
deriving DecidableEq, Repr

/-- The `action_pull_observations` handler: besides its outcome it records
the per-station configurations submitted to `trigger_action`, in order. -/
def action_pull_observations (fetch : ClientOutcome StationsResponse) :
    HandlerOutcome × List PullStationConditionsConfig :=
  match fetch with
  | .ok resp =>
    (.returns [("stations_triggered", .pint resp.stations.length)],
     resp.stations.map (fun s => { station := s }))
  | .rawText s =>
    if s == "" then (.returns [("stations_triggered", .pint 0)], [])
    else (.raisesOther "AttributeError", [])
  | .vwUnauthorized m => (.raisesVW .unauthorized 401 m, [])
  | .vwNotFound m => (.raisesVW .notFound 404 m, [])
  | .vwException c m => (.raisesVW .api c m, [])
  | .httpStatusError s => (.raisesHttp s, [])

/-- Recursion worker for `generate_batches`: the fuel argument (instantiated
with the list length, an upper bound on the rounds needed) makes the
recursion structural. -/
def generate_batches_fuel (fuel : Nat) (records : List α) (n : Nat) : List (List α) :=
  match fuel, records, n with
  | _, [], _ => []
  | _, _, 0 => []
  | 0, _, _ => []
  | f + 1, r :: rs, m + 1 =>
    (r :: rs).take (m + 1) :: generate_batches_fuel f ((r :: rs).drop (m + 1)) (m + 1)

/-- Modelled from the spec: `generate_batches` lives in
`app/services/utils`, which is not under src/; the spec describes it as
chunking the records into consecutive batches of the given size. -/
def generate_batches (records : List α) (n : Nat) : List (List α) :=
  generate_batches_fuel records.length records n

/-- The `action_pull_station_conditions` handler.  `sender` is the awaited
`send_observations_to_gundi`; the handler accumulates the lengths of its
return values.  `VWException` and `httpx.HTTPStatusError` are not caught
here, so they propagate just like the re-raised cases. -/
def action_pull_station_conditions (sender : List Observation → List PyDict)
    (config : PullStationConditionsConfig) (fetch : ClientOutcome ConditionsResponse) :
    HandlerOutcome :=
  match fetch with
  | .ok resp =>
    let transformed_data := transform config.station resp
    let observations_extracted :=
      (generate_batches transformed_data 200).foldl (fun acc batch => acc + (sender batch).length) 0
    .returns [("observations_extracted", .pint observations_extracted)]
  | .rawText s =>
    if s == "" then .returns [("observations_extracted", .pint 0)]
    else .raisesOther "AttributeError"
  | .vwUnauthorized m => .raisesVW .unauthorized 401 m
  | .vwNotFound m => .raisesVW .notFound 404 m
  | .vwException c m => .raisesVW .api c m
  | .httpStatusError s => .raisesHttp s

/-- Inner accumulation of `action_fetch_daily_summary` over the summaries
of one station: each summary is transformed (a `ValueError` from `strptime`
aborts, modelled by `none`), batched, and the sender return lengths are
added up. -/
def station_summaries_count (sender : List SummaryEvent → List PyDict)
    (resp : DailySummaryResponse) (station : Station) : Option Nat :=
  resp.dailysummary.foldl
    (fun acc item =>
      acc.bind fun a =>
        (transform_daily_summary item resp.units station).map fun ev =>
          a + ((generate_batches [ev] 200).foldl (fun b batch => b + (sender batch).length) 0))
    (some 0)

/-- The per-station loop of `action_fetch_daily_summary`. -/
def daily_summary_loop (sender : List SummaryEvent → List PyDict)
    (summaryFetch : Station → ClientOutcome DailySummaryResponse) :
    List Station → Nat → HandlerOutcome
  | [], acc => .returns [("summaries_fetched", .pint acc)]
  | station :: rest, acc =>
    match summaryFetch station with
    | .ok resp =>
      match station_summaries_count sender resp station with
      | some n => daily_summary_loop sender summaryFetch rest (acc + n)
      | none => .raisesOther "ValueError"
    | .rawText s =>
      if s == "" then daily_summary_loop sender summaryFetch rest acc
      else .raisesOther "AttributeError"
    | .vwUnauthorized m => .raisesVW .unauthorized 401 m
    | .vwNotFound m => .raisesVW .notFound 404 m
    | .vwException c m => .raisesVW .api c m
    | .httpStatusError s => .raisesHttp s

/-- The `action_fetch_daily_summary` handler: fetch the station list, then
fetch and forward each station summary sequentially, accumulating the
sender-reported counts. -/
def action_fetch_daily_summary (sender : List SummaryEvent → List PyDict)
    (stationsFetch : ClientOutcome StationsResponse)
    (summaryFetch : Station → ClientOutcome DailySummaryResponse) : HandlerOutcome :=
  match stationsFetch with
  | .ok resp => daily_summary_loop sender summaryFetch resp.stations 0
  | .rawText s =>
    if s == "" then .returns [("summaries_fetched", .pint 0)]
    else .raisesOther "AttributeError"
  | .vwUnauthorized m => .raisesVW .unauthorized 401 m
  | .vwNotFound m => .raisesVW .notFound 404 m
  | .vwException c m => .raisesVW .api c m
  | .httpStatusError s => .raisesHttp s

/-! ## Watermark-driven incremental pull

The history-pull handler and the watermark store operations are not under
src/ — handlers.py only declares the `state_manager` instance and
configurations.py the lookback setting — so they are modelled from the
specification (spec section 4.3). -/

/-- Model `PullObservationsConfig` of configurations.py:
`default_lookback_days` defaults to 15, constrained to 1..30. -/
structure PullObservationsConfig where
  default_lookback_days : Int := 15
deriving DecidableEq, Repr

/-- Whether a lookback value passes the pydantic `ge=1, le=30` bounds. -/
def lookback_valid (cfg : PullObservationsConfig) : Bool :=
  1 ≤ cfg.default_lookback_days && cfg.default_lookback_days ≤ 30

/-- Modelled from the spec: the per-(integration, action, station) keyed
watermark store (`state_manager`), a map from the station key to the last
stored timestamp in epoch seconds. -/
abbrev WatermarkStore := Int → Option Int

/-- Modelled from the spec: the start of the pull window — the stored
watermark when present, otherwise `now - default_lookback_days` in days. -/
def window_start (now : Int) (cfg : PullObservationsConfig) (wm : Option Int) : Int :=
  match wm with
  | some t => t
  | none => now - cfg.default_lookback_days * 86400

/-- Maximum timestamp of a non-empty batch (`max(reading.ts)`). -/
def max_ts (t : Int) (ts : List Int) : Int :=
  ts.foldl max t

/-- Modelled from the spec: one history pull for one station.  `fetch`
returns the record timestamps of the window; on a non-empty batch the
watermark for this station advances to the maximum timestamp, on an empty
batch the store is untouched.  Returns the updated store, the window start
that was used, and the ingested batch. -/
def pull_history (store : WatermarkStore) (station_id : Int) (now : Int)
    (cfg : PullObservationsConfig) (fetch : Int → Int → List Int) :
    WatermarkStore × Int × List Int :=
  let start := window_start now cfg (store station_id)
  match fetch start now with
  | [] => (store, start, [])
  | t :: ts =>
    (fun k => if k = station_id then some (max_ts t ts) else store k, start, t :: ts)

/-! ## Retry policy

client.py decorates each operation with
`stamina.retry(on=httpx.HTTPError, wait_initial=4.0, wait_jitter=5.0,
wait_max=32.0)`.  The decorator itself is an external collaborator, so the
retry loop and backoff schedule are modelled from the specification:
retries happen only for errors matching the `on` predicate, sleeping an
exponentially growing wait starting at `wait_initial`, capped at
`wait_max`, plus a random jitter of at most `wait_jitter`. -/

/-- The errors one attempt of a client operation can raise, as exception
classes: the two httpx transport-layer classes and the three VW
application-layer classes. -/
inductive AttemptError where
  | httpTransport
  | httpStatus (status : Nat)
  | vw (kind : VWKind) (code : Int) (message : String)
deriving DecidableEq, Repr

/-- The `on=httpx.HTTPError` predicate: `httpx.HTTPStatusError` and the
transport errors are subclasses of `httpx.HTTPError`; the VW exceptions are
not. -/
def is_httpx_HTTPError (e : AttemptError) : Bool :=
  match e with
  | .httpTransport => true
  | .httpStatus _ => true
  | .vw _ _ _ => false

/-- Modelled from the spec: the retry loop.  `results i` is what attempt
`i` does; `budget` bounds the remaining retries (retrying forever is not
assumed).  Returns the final outcome and how many attempts ran. -/
def retry_loop (results : Nat → Except AttemptError α) : Nat → Nat → Except AttemptError α × Nat
  | i, budget =>
    match results i, budget with
    | .ok v, _ => (.ok v, i + 1)
    | .error e, 0 => (.error e, i + 1)
    | .error e, b + 1 =>
      if is_httpx_HTTPError e then retry_loop results (i + 1) b
      else (.error e, i + 1)

/-- Modelled from the spec: the exponential part of the wait before retry
number `k + 1`, with `wait_initial = 4` and `wait_max = 32`. -/
def stamina_wait (k : Nat) : Nat :=
  min (4 * 2 ^ k) 32

/-- Modelled from the spec: the full wait including the random jitter drawn
for that attempt. -/
def retry_backoff (jitter : Nat → ℚ) (k : Nat) : ℚ :=
  (stamina_wait k : ℚ) + jitter k

/-- Classify a client outcome as one attempt of the decorated coroutine:
the raised exceptions become errors, the two return paths succeed. -/
def as_attempt (out : ClientOutcome α) : Except AttemptError (ClientOutcome α) :=
  match out with
  | .vwUnauthorized m => .error (.vw .unauthorized 401 m)
  | .vwNotFound m => .error (.vw .notFound 404 m)
  | .vwException c m => .error (.vw .api c m)
  | .httpStatusError s => .error (.httpStatus s)
  | o => .ok o

/-! ## Claim theorems -/

/-- C7: for every timestamp field in a parsed API response (`generated_at`
of each of the three responses and the per-record `ts`), a timestamp
arriving without timezone information is interpreted as UTC — the parsed
value keeps its wall clock and gets `tzinfo` UTC — and a timestamp arriving
with timezone information is preserved unchanged. -/
theorem c7_timestamp_utc_normalization :
    (∀ v : PyDatetime, v.tz = none →
      parse_time_string v = { wall := v.wall, tz := some 0 }) ∧
    (∀ v : PyDatetime, v.tz.isSome → parse_time_string v = v) ∧
    (∀ b : StationsBody, b.generated_at.tz = none →
      (StationsResponse.parse_obj b).generated_at = { wall := b.generated_at.wall, tz := some 0 }) ∧
    (∀ b : StationsBody, b.generated_at.tz.isSome →
      (StationsResponse.parse_obj b).generated_at = b.generated_at) ∧
    (∀ b : ConditionsBody, b.generated_at.tz = none →
      (ConditionsResponse.parse_obj b).generated_at = { wall := b.generated_at.wall, tz := some 0 }) ∧
    (∀ b : ConditionsBody, b.generated_at.tz.isSome →
      (ConditionsResponse.parse_obj b).generated_at = b.generated_at) ∧
    (∀ (b : ConditionsBody) (j : Nat) (c : ConditionsItem), b.conditions[j]? = some c →
      c.ts.tz = none →
      ((ConditionsResponse.parse_obj b).conditions[j]?).map (fun x => x.ts) =
        some { wall := c.ts.wall, tz := some 0 }) ∧
    (∀ (b : ConditionsBody) (j : Nat) (c : ConditionsItem), b.conditions[j]? = some c →
      c.ts.tz.isSome →
      ((ConditionsResponse.parse_obj b).conditions[j]?).map (fun x => x.ts) = some c.ts) ∧
    (∀ b : DailySummaryBody, b.generated_at.tz = none →
      (DailySummaryResponse.parse_obj b).generated_at = { wall := b.generated_at.wall, tz := some 0 }) ∧
    (∀ b : DailySummaryBody, b.generated_at.tz.isSome →
      (DailySummaryResponse.parse_obj b).generated_at = b.generated_at) := by
  have base_naive : ∀ v : PyDatetime, v.tz = none →
      parse_time_string v = { wall := v.wall, tz := some 0 } := by
    intro v h
    simp [parse_time_string, h]
  have base_aware : ∀ v : PyDatetime, v.tz.isSome → parse_time_string v = v := by
    intro v h
    simp [parse_time_string, Option.isNone_iff_eq_none]
    intro h2
    rw [h2] at h
    simp at h
  refine ⟨base_naive, base_aware, ?_, ?_, ?_, ?_, ?_, ?_, ?_, ?_⟩
  · intro b h
    simpa [StationsResponse.parse_obj] using base_naive _ h
  · intro b h
    simpa [StationsResponse.parse_obj] using base_aware _ h
  · intro b h
    simpa [ConditionsResponse.parse_obj] using base_naive _ h
  · intro b h
    simpa [ConditionsResponse.parse_obj] using base_aware _ h
  · intro b j c hj h
    simp [ConditionsResponse.parse_obj, List.getElem?_map, hj, base_naive _ h]
  · intro b j c hj h
    simp [ConditionsResponse.parse_obj, List.getElem?_map, hj, base_aware _ h]
  · intro b h
    simpa [DailySummaryResponse.parse_obj] using base_naive _ h
  · intro b h
    simpa [DailySummaryResponse.parse_obj] using base_aware _ h

/-- Witness for C7 at concrete inputs: a naive `generated_at` becomes the
same wall-clock instant tagged UTC, an aware per-record `ts` is kept. -/
theorem c7_timestamp_utc_normalization_witness :
    (StationsResponse.parse_obj
      { stations := [], generated_at := { wall := 1739811533, tz := none },
        code := 200, message := "success" }).generated_at =
      { wall := 1739811533, tz := some 0 } ∧
    parse_time_string { wall := 77, tz := some 7200 } = { wall := 77, tz := some 7200 } := by
  constructor
  · exact c7_timestamp_utc_normalization.2.2.1 _ rfl
  · exact c7_timestamp_utc_normalization.2.1 _ rfl

/-- C1: for every client endpoint operation and every response, HTTP 401
fails with the unauthorized error and HTTP 404 with the not-found error
regardless of the body, any other HTTP error status fails with the raw
transport error, and a successful HTTP response whose body carries
`code != 200` fails with the API error holding that code and message. -/
theorem c1_client_error_taxonomy :
    (∀ r : HttpResponse StationsBody, r.status = 401 →
      get_stations r = .vwUnauthorized "Unauthorized access") ∧
    (∀ r : HttpResponse StationsBody, r.status = 404 →
      get_stations r = .vwNotFound "User not found") ∧
    (∀ r : HttpResponse StationsBody, 400 ≤ r.status → r.status ≠ 401 → r.status ≠ 404 →
      get_stations r = .httpStatusError r.status) ∧
    (∀ (r : HttpResponse StationsBody) (parsed : StationsBody), r.status < 400 →
      r.body = some parsed → parsed.code ≠ 200 →
      get_stations r = .vwException parsed.code parsed.message) ∧
    (∀ r : HttpResponse ConditionsBody, r.status = 401 →
      get_station_conditions r = .vwUnauthorized "Unauthorized access") ∧
    (∀ r : HttpResponse ConditionsBody, r.status = 404 →
      get_station_conditions r = .vwNotFound "User not found") ∧
    (∀ r : HttpResponse ConditionsBody, 400 ≤ r.status → r.status ≠ 401 → r.status ≠ 404 →
      get_station_conditions r = .httpStatusError r.status) ∧
    (∀ (r : HttpResponse ConditionsBody) (parsed : ConditionsBody), r.status < 400 →
      r.body = some parsed → parsed.code ≠ 200 →
      get_station_conditions r = .vwException parsed.code parsed.message) ∧
    (∀ r : HttpResponse DailySummaryBody, r.status = 401 →
      get_daily_summary r = .vwUnauthorized "Unauthorized access") ∧
    (∀ r : HttpResponse DailySummaryBody, r.status = 404 →
      get_daily_summary r = .vwNotFound "User not found") ∧
    (∀ r : HttpResponse DailySummaryBody, 400 ≤ r.status → r.status ≠ 401 → r.status ≠ 404 →
      get_daily_summary r = .httpStatusError r.status) ∧
    (∀ (r : HttpResponse DailySummaryBody) (parsed : DailySummaryBody), r.status < 400 →
      r.body = some parsed → parsed.code ≠ 200 →
      get_daily_summary r = .vwException parsed.code parsed.message) := by
  refine ⟨?_, ?_, ?_, ?_, ?_, ?_, ?_, ?_, ?_, ?_, ?_, ?_⟩
  · intro r h
    simp [get_stations, h]
  · intro r h
    simp [get_stations, h]
  · intro r h1 h2 h3
    simp only [get_stations]
    rw [if_pos h1]
    simp [h2, h3]
  · intro r parsed h1 h2 h3
    simp only [get_stations]
    rw [if_neg (by omega), h2]
    simp [h3]
  · intro r h
    simp [get_station_conditions, h]
  · intro r h
    simp [get_station_conditions, h]
  · intro r h1 h2 h3
    simp only [get_station_conditions]
    rw [if_pos h1]
    simp [h2, h3]
  · intro r parsed h1 h2 h3
    simp only [get_station_conditions]
    rw [if_neg (by omega), h2]
    simp [h3]
  · intro r h
    simp [get_daily_summary, h]
  · intro r h
    simp [get_daily_summary, h]
  · intro r h1 h2 h3
    simp only [get_daily_summary]
    rw [if_pos h1]
    simp [h2, h3]
  · intro r parsed h1 h2 h3
    simp only [get_daily_summary]
    rw [if_neg (by omega), h2]
    simp [h3]

/-- Witness for C1: one concrete response for each branch kind — a 401
with an irrelevant body, a 404, a plain 500, and an HTTP 200 carrying
`code = 400`. -/
theorem c1_client_error_taxonomy_witness :
    get_stations
      { status := 401,
        body := some { stations := [], generated_at := { wall := 0, tz := none },
                       code := 200, message := "success" },
        text := "irrelevant" } = .vwUnauthorized "Unauthorized access" ∧
    get_stations { status := 404, body := none, text := "" } = .vwNotFound "User not found" ∧
    get_stations { status := 500, body := none, text := "" } = .httpStatusError 500 ∧
    get_stations
      { status := 200,
        body := some { stations := [], generated_at := { wall := 0, tz := none },
                       code := 400, message := "Incorrect KEY" },
        text := "x" } = .vwException 400 "Incorrect KEY" := by
  refine ⟨?_, ?_, ?_, ?_⟩
  · exact c1_client_error_taxonomy.1 _ rfl
  · exact c1_client_error_taxonomy.2.1 _ rfl
  · exact c1_client_error_taxonomy.2.2.1 { status := 500, body := none, text := "" }
      (by decide) (by decide) (by decide)
  · exact c1_client_error_taxonomy.2.2.2.1
      { status := 200,
        body := some { stations := [], generated_at := { wall := 0, tz := none },
                       code := 400, message := "Incorrect KEY" },
        text := "x" }
      { stations := [], generated_at := { wall := 0, tz := none },
        code := 400, message := "Incorrect KEY" }
      (by decide) rfl (by decide)

/-- C8: for every client operation, a Python-falsy JSON body on a
successful HTTP response is no data, not an error: the client returns the
raw text instead of raising, and each handler maps an empty (falsy) client
result to its zero-count success result. -/
theorem c8_empty_payload_no_data :
    (∀ r : HttpResponse StationsBody, r.status < 400 → r.body = none →
      get_stations r = .rawText r.text) ∧
    (∀ r : HttpResponse ConditionsBody, r.status < 400 → r.body = none →
      get_station_conditions r = .rawText r.text) ∧
    (∀ r : HttpResponse DailySummaryBody, r.status < 400 → r.body = none →
      get_daily_summary r = .rawText r.text) ∧
    action_pull_observations (.rawText "") = (.returns [("stations_triggered", .pint 0)], []) ∧
    (∀ (sender : List Observation → List PyDict) (config : PullStationConditionsConfig),
      action_pull_station_conditions sender config (.rawText "") =
        .returns [("observations_extracted", .pint 0)]) ∧
    (∀ (sender : List SummaryEvent → List PyDict)
      (summaryFetch : Station → ClientOutcome DailySummaryResponse),
      action_fetch_daily_summary sender (.rawText "") summaryFetch =
        .returns [("summaries_fetched", .pint 0)]) := by
  refine ⟨?_, ?_, ?_, rfl, ?_, ?_⟩
  · intro r h1 h2
    simp only [get_stations]
    rw [if_neg (by omega), h2]
  · intro r h1 h2
    simp only [get_station_conditions]
    rw [if_neg (by omega), h2]
  · intro r h1 h2
    simp only [get_daily_summary]
    rw [if_neg (by omega), h2]
  · intro sender config
    rfl
  · intro sender summaryFetch
    rfl

/-- Witness for C8: a concrete HTTP 200 whose JSON body is falsy yields the
raw text for each endpoint. -/
theorem c8_empty_payload_no_data_witness :
    get_stations { status := 200, body := none, text := "" } = .rawText "" ∧
    get_station_conditions { status := 200, body := none, text := "" } = .rawText "" ∧
    get_daily_summary { status := 204, body := none, text := "" } = .rawText "" := by
  refine ⟨?_, ?_, ?_⟩
  · exact c8_empty_payload_no_data.1 { status := 200, body := none, text := "" }
      (by decide) rfl
  · exact c8_empty_payload_no_data.2.1 { status := 200, body := none, text := "" }
      (by decide) rfl
  · exact c8_empty_payload_no_data.2.2.1 { status := 204, body := none, text := "" }
      (by decide) rfl

/-- View the dictionary a handler returned (empty for a raised outcome). -/
def result_dict : HandlerOutcome → PyDict
  | .returns d => d
  | _ => []

/-- Counterexample to C5: on a transport-level `httpx.HTTPStatusError` the
auth handler returns `error: true` with the status code but with no
`message` key and no `valid_credentials` key, so the result does not carry
the status code and message as a `valid:false` failure; moreover a
successful fetch whose station list is empty — a zero result — yields
`valid_credentials: true`, not the "Bad credentials" failure. -/
theorem c5_auth_check_counterexample :
    dictContains (result_dict (action_auth (.httpStatusError 500))) "message" = false ∧
    dictContains (result_dict (action_auth (.httpStatusError 500))) "valid_credentials" = false ∧
    action_auth (.httpStatusError 500) = .returns [("error", .pbool true), ("status_code", .pint 500)] ∧
    action_auth (.ok { stations := [], generated_at := { wall := 0, tz := some 0 },
                       code := 200, message := "success" }) =
      .returns [("valid_credentials", .pbool true)] := by
  exact ⟨rfl, rfl, rfl, rfl⟩

/-- C5 as amended: the auth-check handler returns `valid_credentials: true`
for any parsed (hence truthy) stations response — including one with zero
stations; returns the "Bad credentials" failure for an empty raw result;
returns `valid_credentials: false` with that status code and message for
each application error (`ApiError`, `Unauthorized`, `NotFound`) instead of
raising; and for an HTTP transport status error returns `error: true` with
the status code only, without a message. -/
theorem c5_auth_check_results :
    (∀ resp : StationsResponse, action_auth (.ok resp) =
      .returns [("valid_credentials", .pbool true)]) ∧
    action_auth (.rawText "") =
      .returns [("valid_credentials", .pbool false), ("message", .pstr "Bad credentials")] ∧
    (∀ (code : Int) (message : String), action_auth (.vwException code message) =
      .returns [("valid_credentials", .pbool false), ("status_code", .pint code),
                ("message", .pstr message)]) ∧
    (∀ message : String, action_auth (.vwUnauthorized message) =
      .returns [("valid_credentials", .pbool false), ("status_code", .pint 401),
                ("message", .pstr message)]) ∧
    (∀ message : String, action_auth (.vwNotFound message) =
      .returns [("valid_credentials", .pbool false), ("status_code", .pint 404),
                ("message", .pstr message)]) ∧
    (∀ status : Nat, action_auth (.httpStatusError status) =
      .returns [("error", .pbool true), ("status_code", .pint status)]) := by
  exact ⟨fun _ => rfl, rfl, fun _ _ => rfl, fun _ => rfl, fun _ => rfl, fun _ => rfl⟩

/-- C6: for every non-empty station list, the pull-observations handler
submits exactly one per-station sub-configuration per station to the
scheduler and returns `stations_triggered` equal to the number of stations;
one station yields exactly one unit of work and the result 1; an
application error from the stations fetch is re-raised. -/
theorem c6_fanout_one_trigger_per_station :
    (∀ resp : StationsResponse, resp.stations ≠ [] →
      action_pull_observations (.ok resp) =
        (.returns [("stations_triggered", .pint resp.stations.length)],
         resp.stations.map (fun s => { station := s }))) ∧
    (∀ (s : Station) (g : PyDatetime) (c : Int) (m : String),
      action_pull_observations (.ok { stations := [s], generated_at := g, code := c, message := m }) =
        (.returns [("stations_triggered", .pint 1)], [{ station := s }])) ∧
    (∀ (code : Int) (message : String),
      action_pull_observations (.vwException code message) = (.raisesVW .api code message, [])) ∧
    (∀ message : String,
      action_pull_observations (.vwUnauthorized message) = (.raisesVW .unauthorized 401 message, [])) := by
  exact ⟨fun _ _ => rfl, fun _ _ _ _ => rfl, fun _ _ => rfl, fun _ => rfl⟩

/-- Witness for C6 at the concrete station of the test suite. -/
theorem c6_fanout_one_trigger_per_station_witness :
    action_pull_observations (.ok
      { stations := [{ Station_ID := 123, Station_Name := "Test Station",
                       latitude := "-15.92883055", longitude := "34.606880555",
                       height := "166.6" }],
        generated_at := { wall := 1739811533, tz := some 0 },
        code := 200, message := "success" }) =
      (.returns [("stations_triggered", .pint 1)],
       [{ station := { Station_ID := 123, Station_Name := "Test Station",
                       latitude := "-15.92883055", longitude := "34.606880555",
                       height := "166.6" } }]) := by
  exact c6_fanout_one_trigger_per_station.1 _ (by simp)

/-- C2: with no prior watermark and the default configuration
(`default_lookback_days = 15`), a history pull uses a window starting at
`now` minus 15 days; after a successful pull whose batch has maximum
timestamp `T`, the stored watermark for that station key equals `T`; and
the next pull for that station uses window start `T`. -/
theorem c2_watermark_monotonic_pull :
    ∀ (store : WatermarkStore) (station_id now now2 : Int)
      (fetch fetch2 : Int → Int → List Int),
      store station_id = none →
      (pull_history store station_id now {} fetch).2.1 = now - 15 * 86400 ∧
      ({} : PullObservationsConfig).default_lookback_days = 15 ∧
      (∀ (t : Int) (ts : List Int), fetch (now - 15 * 86400) now = t :: ts →
        (pull_history store station_id now {} fetch).1 station_id = some (max_ts t ts) ∧
        (pull_history (pull_history store station_id now {} fetch).1
          station_id now2 {} fetch2).2.1 = max_ts t ts) := by
  intro store station_id now now2 fetch fetch2 h0
  have hstart : window_start now {} (store station_id) = now - 15 * 86400 := by
    simp [window_start, h0]
  refine ⟨?_, rfl, ?_⟩
  · simp only [pull_history, hstart]
    rcases fetch (now - 15 * 86400) now with _ | ⟨t, ts⟩ <;> rfl
  · intro t ts hf
    have hfirst : (pull_history store station_id now {} fetch).1 station_id = some (max_ts t ts) := by
      simp only [pull_history]
      rw [hstart, hf]
      simp
    refine ⟨hfirst, ?_⟩
    generalize (pull_history store station_id now {} fetch).1 = st1 at hfirst
    have hstart2 : window_start now2 {} (st1 station_id) = max_ts t ts := by
      simp [window_start, hfirst]
    simp only [pull_history, hstart2]
    rcases fetch2 (max_ts t ts) now2 with _ | ⟨u, us⟩ <;> rfl

/-- Witness for C2: an empty store, station 7, `now` at 1750000000, a
fetch returning timestamps 10 and 20 — the first window starts 15 days
before `now`, the watermark becomes 20 and the second pull starts at 20. -/
theorem c2_watermark_monotonic_pull_witness :
    (pull_history (fun _ => none) 7 1750000000 {} (fun _ _ => [10, 20])).2.1 =
      1750000000 - 15 * 86400 ∧
    (pull_history (fun _ => none) 7 1750000000 {} (fun _ _ => [10, 20])).1 7 =
      some (max_ts 10 [20]) ∧
    (pull_history (pull_history (fun _ => none) 7 1750000000 {} (fun _ _ => [10, 20])).1
      7 1760000000 {} (fun _ _ => [])).2.1 = max_ts 10 [20] ∧
    max_ts 10 [20] = 20 := by
  have h := c2_watermark_monotonic_pull (fun _ => none) 7 1750000000 1760000000
    (fun _ _ => [10, 20]) (fun _ _ => []) rfl
  exact ⟨h.1, (h.2.2 10 [20] rfl).1, (h.2.2 10 [20] rfl).2, rfl⟩

/-- C9: retries are driven by the `on=httpx.HTTPError` predicate: an
application-level `VWException` (ApiError) aborts after a single attempt
and is returned unchanged — in particular a successful HTTP response with
a non-200 body code is never retried — a second attempt happens only after
an `httpx.HTTPError`; the modelled backoff starts at 4 seconds, doubles up
to the 32-second cap, and adds at most 5 seconds of jitter. -/
theorem c9_retry_policy {α : Type} :
    (∀ (results : Nat → Except AttemptError α) (budget : Nat) (code : Int) (message : String),
      results 0 = .error (.vw .api code message) →
      retry_loop results 0 budget = (.error (.vw .api code message), 1)) ∧
    (∀ (results : Nat → Except AttemptError α) (budget : Nat),
      1 < (retry_loop results 0 budget).2 →
      ∃ e, results 0 = .error e ∧ is_httpx_HTTPError e = true) ∧
    (∀ (r : HttpResponse StationsBody) (parsed : StationsBody) (budget : Nat),
      r.status < 400 → r.body = some parsed → parsed.code ≠ 200 →
      retry_loop (fun _ => as_attempt (get_stations r)) 0 budget =
        (.error (.vw .api parsed.code parsed.message), 1)) ∧
    stamina_wait 0 = 4 ∧
    (∀ k, stamina_wait k ≤ 32) ∧
    (∀ k, stamina_wait (k + 1) = min (2 * stamina_wait k) 32) ∧
    (∀ (jitter : Nat → ℚ) (k : Nat), (∀ j, 0 ≤ jitter j ∧ jitter j ≤ 5) →
      (stamina_wait k : ℚ) ≤ retry_backoff jitter k ∧
      retry_backoff jitter k ≤ (stamina_wait k : ℚ) + 5) := by
  have no_retry : ∀ {β : Type} (results : Nat → Except AttemptError β) (budget : Nat)
      (e : AttemptError), results 0 = .error e → is_httpx_HTTPError e = false →
      retry_loop results 0 budget = (.error e, 1) := by
    intro β results budget e h he
    cases budget with
    | zero => simp [retry_loop, h]
    | succ b => simp [retry_loop, h, he]
  refine ⟨?_, ?_, ?_, rfl, ?_, ?_, ?_⟩
  · intro results budget code message h
    exact no_retry results budget (.vw .api code message) h rfl
  · intro results budget h
    rcases h0 : results 0 with e | v
    · rcases hr : is_httpx_HTTPError e with _ | _
      · rw [no_retry results budget e h0 hr] at h
        simp at h
      · exact ⟨e, rfl, hr⟩
    · cases budget <;> simp [retry_loop, h0] at h
  · intro r parsed budget h1 h2 h3
    have hc : get_stations r = .vwException parsed.code parsed.message := by
      simp only [get_stations]
      rw [if_neg (by omega), h2]
      simp [h3]
    have ha : as_attempt (get_stations r) =
        .error (.vw .api parsed.code parsed.message) := by
      rw [hc]
      rfl
    exact no_retry (fun _ => as_attempt (get_stations r)) budget
      (.vw .api parsed.code parsed.message) ha rfl
  · intro k
    simp [stamina_wait]
  · intro k
    have h2 : 4 * 2 ^ (k + 1) = 2 * (4 * 2 ^ k) := by ring
    simp only [stamina_wait, h2]
    generalize 4 * 2 ^ k = a
    omega
  · intro jitter k h
    constructor
    · simp only [retry_backoff]
      linarith [(h k).1]
    · simp only [retry_backoff]
      linarith [(h k).2]

/-- Witness for C9: a fetch raising `VWException(400, "Incorrect KEY")`
finishes after exactly one attempt with that error, for any remaining
retry budget; a run whose attempt count exceeds 1 saw an httpx error
first; jitter bounds hold at a concrete jitter stream. -/
theorem c9_retry_policy_witness :
    retry_loop (fun _ => (.error (.vw .api 400 "Incorrect KEY") :
      Except AttemptError (ClientOutcome StationsResponse))) 0 9 =
      (.error (.vw .api 400 "Incorrect KEY"), 1) ∧
    retry_loop (fun _ => as_attempt (get_stations
      { status := 200,
        body := some { stations := [], generated_at := { wall := 0, tz := none },
                       code := 400, message := "Incorrect KEY" },
        text := "x" })) 0 9 =
      ((.error (.vw .api 400 "Incorrect KEY") :
        Except AttemptError (ClientOutcome StationsResponse)), 1) ∧
    (stamina_wait 3 : ℚ) ≤ retry_backoff (fun _ => 3) 3 ∧
    retry_backoff (fun _ => 3) 3 ≤ (stamina_wait 3 : ℚ) + 5 := by
  refine ⟨?_, ?_, ?_, ?_⟩
  · exact (@c9_retry_policy (ClientOutcome StationsResponse)).1 _ 9 400 "Incorrect KEY" rfl
  · exact (@c9_retry_policy (ClientOutcome StationsResponse)).2.2.1
      { status := 200,
        body := some { stations := [], generated_at := { wall := 0, tz := none },
                       code := 400, message := "Incorrect KEY" },
        text := "x" }
      { stations := [], generated_at := { wall := 0, tz := none },
        code := 400, message := "Incorrect KEY" }
      9 (by decide) rfl (by decide)
  · exact ((@c9_retry_policy Unit).2.2.2.2.2.2 (fun _ => 3) 3 (fun _ => by norm_num)).1
  · exact ((@c9_retry_policy Unit).2.2.2.2.2.2 (fun _ => 3) 3 (fun _ => by norm_num)).2

/-- In a decorated conditions record the `ts` entry is untouched: it still
holds the original datetime. -/
theorem match_units_conditions_ts (c : ConditionsItem) (u : Units) :
    dictGetD (match_units c.toDict u.toDict) "ts" (.pstr "") = .pdt c.ts := rfl

/-- Sample station used by the concrete scenarios (the one of the test
suite). -/
def sample_station : Station :=
  { Station_ID := 123, Station_Name := "Test Station",
    latitude := "-15.92883055", longitude := "34.606880555", height := "166.6" }

/-- Sample daily summary record of the test suite. -/
def sample_summary : DailySummaryItem :=
  { station_id := 123, Date := "2025-03-03", rain := "58.8", avg_temp := "21.6",
    min_temp := "20.6", max_temp := "22.8", avg_RH := 94, min_RH := 92, max_RH := 95,
    avg_wind := "0.1", avg_solar := 0, avg_pressure := "1003.71",
    min_pressure := "1002.51", max_pressure := "1005.28",
    avg_winddirection := [.pint 225, .pstr "SW"] }

/-- Sample daily summary unit table of the test suite. -/
def sample_summary_units : DailySummaryUnits :=
  { rain := "mm", avg_temp := "°C", max_temp := "°C", min_temp := "°C", avg_RH := "%",
    max_hum := "%", min_hum := "%", avg_wind := "kph", avg_solar := "Watts/M",
    avg_pressure := "mb", min_pressure := "mb", max_pressure := "mb",
    avg_winddirection := ["°", "DIR"] }

/-- C3: each transformed observation renders the unit-table fields as
`"{value} {unit}"` strings, extracts the timestamp into `recorded_at`,
drops it from the decorated fields and wraps the rest under `additional`
with the station identity and location; the daily-summary transform wraps
the decorated fields under `event_details` and sets `recorded_at` to UTC
midnight of the summary's date string; concretely, a summary with
`avg_temp = 21.6` and unit `°C` yields `event_details.avg_temp = "21.6 °C"`
and `recorded_at` at 2025-03-03 00:00:00 UTC (epoch 1740960000). -/
theorem c3_transform_shapes :
    (∀ (station : Station) (resp : ConditionsResponse) (j : Nat) (item : ConditionsItem),
      resp.conditions[j]? = some item →
      (transform station resp)[j]? = some
        { source_name := station.Station_Name
          source := station.Station_ID
          type := "stationary-object"
          subtype := "weather_station"
          recorded_at := .pdt item.ts
          location_lat := station.latitude
          location_lon := station.longitude
          additional := ("station_height", .pfloat station.height) ::
            dictErase (match_units item.toDict resp.units.toDict) "ts" }) ∧
    (∀ (item : ConditionsItem) (u : Units),
      dictGet (match_units item.toDict u.toDict) "temperature" =
        some (.pstr (item.temperature ++ " " ++ u.temperature)) ∧
      dictGet (match_units item.toDict u.toDict) "pressure" =
        some (.pstr (item.pressure ++ " " ++ u.pressure))) ∧
    (∀ (summary : DailySummaryItem) (units : DailySummaryUnits) (station : Station)
      (t : PyDatetime), strptime_date summary.Date = some t →
      transform_daily_summary summary units station = some
        { title := "Station " ++ toString summary.station_id ++ " Summary (" ++ summary.Date ++ ")"
          event_type := "weather_station_summary"
          recorded_at := { wall := t.wall, tz := some 0 }
          location_lat := station.latitude
          location_lon := station.longitude
          event_details := match_units summary.toDict units.toDict }) ∧
    ((transform_daily_summary sample_summary sample_summary_units sample_station).map
      (fun ev => dictGet ev.event_details "avg_temp") = some (some (.pstr "21.6 °C"))) ∧
    ((transform_daily_summary sample_summary sample_summary_units sample_station).map
      (fun ev => ev.recorded_at) = some { wall := 1740960000, tz := some 0 }) := by
  refine ⟨?_, ?_, ?_, rfl, rfl⟩
  · intro station resp j item h
    simp [transform, List.getElem?_map, h, match_units_conditions_ts]
  · intro item u
    exact ⟨rfl, rfl⟩
  · intro summary units station t h
    simp [transform_daily_summary, h]

/-- Witness for C3 at the concrete test fixture: the decorated temperature
of a conditions record, and the daily summary of the test suite. -/
theorem c3_transform_shapes_witness :
    dictGet (match_units
      (ConditionsItem.toDict
        { station_id := 123, station_Name := "Test Station",
          ts := { wall := 1741271702, tz := some 0 }, pressure := "995.3",
          temperature := "25.6", humidity := 88, wind_average := "0.0",
          max_wind := "3.2", wind_direction := 180, total_rain := "0.0",
          FDI := 25, solar_radiation := "0.0" })
      (Units.toDict
        { local_time_last_update := "SAST", ts := "UTC", temperature := "°C",
          humidity := "%", pressure := "mb", wind_average := "Kp/h",
          wind_direction := "360 points", total_rain := "mm",
          solar_radiation := " W/M2", FDI := "" })) "temperature" =
      some (.pstr "25.6 °C") ∧
    transform_daily_summary sample_summary sample_summary_units sample_station = some
      { title := "Station 123 Summary (2025-03-03)"
        event_type := "weather_station_summary"
        recorded_at := { wall := 1740960000, tz := some 0 }
        location_lat := "-15.92883055"
        location_lon := "34.606880555"
        event_details := match_units sample_summary.toDict sample_summary_units.toDict } := by
  constructor
  · have h := (c3_transform_shapes.2.1
      { station_id := 123, station_Name := "Test Station",
        ts := { wall := 1741271702, tz := some 0 }, pressure := "995.3",
        temperature := "25.6", humidity := 88, wind_average := "0.0",
        max_wind := "3.2", wind_direction := 180, total_rain := "0.0",
        FDI := 25, solar_radiation := "0.0" }
      { local_time_last_update := "SAST", ts := "UTC", temperature := "°C",
        humidity := "%", pressure := "mb", wind_average := "Kp/h",
        wind_direction := "360 points", total_rain := "mm",
        solar_radiation := " W/M2", FDI := "" }).1
    simpa using h
  · have h := c3_transform_shapes.2.2.1 sample_summary sample_summary_units sample_station
      { wall := 1740960000, tz := none } rfl
    simpa using h

/-- The batch-size profile of chunking depends only on the length of the
chunked list. -/
theorem generate_batches_fuel_lengths {α β : Type} (n : Nat) :
    ∀ (fuel : Nat) (l : List α) (l2 : List β), l.length = l2.length →
      (generate_batches_fuel fuel l n).map List.length =
        (generate_batches_fuel fuel l2 n).map List.length := by
  intro fuel
  induction fuel with
  | zero =>
    intro l l2 h
    cases l <;> cases l2 <;> cases n <;> simp_all [generate_batches_fuel]
  | succ f ih =>
    intro l l2 h
    cases l with
    | nil =>
      cases l2 with
      | nil => simp [generate_batches_fuel]
      | cons y ys => simp at h
    | cons r rs =>
      cases l2 with
      | nil => simp at h
      | cons y ys =>
        simp only [List.length_cons] at h
        cases n with
        | zero => simp [generate_batches_fuel]
        | succ m =>
          have hlen : ((r :: rs).take (m + 1)).length = ((y :: ys).take (m + 1)).length := by
            simp only [List.length_take, List.length_cons]
            omega
          have hdrop : ((r :: rs).drop (m + 1)).length = ((y :: ys).drop (m + 1)).length := by
            simp only [List.length_drop, List.length_cons]
            omega
          simp only [generate_batches_fuel, List.map_cons]
          rw [hlen, ih _ _ hdrop]

/-- Accumulating the lengths of `g` over a list with `foldl` is the sum of
the mapped lengths. -/
theorem foldl_add_length_eq_sum {γ δ : Type} (g : γ → List δ) (l : List γ) (a : Nat) :
    l.foldl (fun acc x => acc + (g x).length) a =
      a + (l.map (fun x => (g x).length)).sum := by
  induction l generalizing a with
  | nil => simp
  | cons x xs ih => simp [ih, Nat.add_assoc]

/-- C4: the per-station handlers chunk the transformed records into batches
of 200 — any 450 records give exactly the batch sizes 200, 200, 50 — and
return as the extracted count the sum over batches of the lengths of the
downstream sender's return values, for both the conditions handler and the
daily-summary handler. -/
theorem c4_batching_and_sender_counts :
    (∀ l : List Observation, l.length = 450 →
      (generate_batches l 200).map List.length = [200, 200, 50]) ∧
    (∀ (sender : List Observation → List PyDict) (config : PullStationConditionsConfig)
      (resp : ConditionsResponse),
      action_pull_station_conditions sender config (.ok resp) =
        .returns [("observations_extracted",
          .pint (((generate_batches (transform config.station resp) 200).map
            (fun batch => (sender batch).length)).sum))]) ∧
    (∀ (sender : List SummaryEvent → List PyDict)
      (summaryFetch : Station → ClientOutcome DailySummaryResponse)
      (st : Station) (resp : DailySummaryResponse) (n : Nat),
      summaryFetch st = .ok resp →
      station_summaries_count sender resp st = some n →
      daily_summary_loop sender summaryFetch [st] 0 =
        .returns [("summaries_fetched", .pint n)]) ∧
    (∀ (sender : List SummaryEvent → List PyDict) (resp : DailySummaryResponse)
      (st : Station) (item : DailySummaryItem) (ev : SummaryEvent),
      resp.dailysummary = [item] →
      transform_daily_summary item resp.units st = some ev →
      station_summaries_count sender resp st =
        some (((generate_batches [ev] 200).map (fun batch => (sender batch).length)).sum)) := by
  refine ⟨?_, ?_, ?_, ?_⟩
  · intro l h
    rw [generate_batches, h,
      generate_batches_fuel_lengths 200 450 l (List.range 450) (by simp [h])]
    set_option maxRecDepth 20000 in decide
  · intro sender config resp
    simp only [action_pull_station_conditions]
    rw [foldl_add_length_eq_sum]
    simp
  · intro sender summaryFetch st resp n h1 h2
    simp [daily_summary_loop, h1, h2]
  · intro sender resp st item ev h1 h2
    simp only [station_summaries_count, h1, List.foldl_cons, List.foldl_nil, Option.bind]
    rw [h2]
    simp only [Option.map]
    rw [foldl_add_length_eq_sum]
    simp

/-- Witness for C4: 450 concrete records chunk as 200, 200, 50; a one-item
daily summary response with a sender acknowledging one record per batch
yields one summary fetched. -/
theorem c4_batching_and_sender_counts_witness :
    (generate_batches (List.replicate 450
      ({ source_name := "s", source := 1, type := "stationary-object",
         subtype := "weather_station", recorded_at := .pint 0,
         location_lat := "0", location_lon := "0", additional := [] } : Observation)) 200).map
      List.length = [200, 200, 50] ∧
    daily_summary_loop (fun batch => batch.map (fun _ => []))
      (fun _ => .ok { dailysummary := [sample_summary], units := sample_summary_units,
                      generated_at := { wall := 0, tz := some 0 },
                      code := 200, message := "success" })
      [sample_station] 0 = .returns [("summaries_fetched", .pint 1)] := by
  constructor
  · exact c4_batching_and_sender_counts.1 _ (by rw [List.length_replicate])
  · exact c4_batching_and_sender_counts.2.2.1 (fun batch => batch.map (fun _ => []))
      (fun _ => .ok { dailysummary := [sample_summary], units := sample_summary_units,
                      generated_at := { wall := 0, tz := some 0 },
                      code := 200, message := "success" })
      sample_station
      { dailysummary := [sample_summary], units := sample_summary_units,
        generated_at := { wall := 0, tz := some 0 }, code := 200, message := "success" }
      1 rfl (by rfl)

/-- Functional description of the `match_units` overlay at any present
key: the value is wrapped into the rendered unit string exactly when the
key has a units entry and is not `ts`, and is returned unchanged
otherwise. -/
theorem match_units_get (u : PyDict) (k : String) :
    ∀ (d : PyDict) (v : PyVal), dictGet d k = some v →
      dictGet (match_units d u) k =
        if dictContains u k && k != "ts" then
          some (.pstr (pyStr v ++ " " ++ pyStr (dictGetD u k (.pstr ""))))
        else some v := by
  intro d
  induction d with
  | nil =>
    intro v h
    simp [dictGet] at h
  | cons kv rest ih =>
    intro v h
    rcases kv with ⟨k0, v0⟩
    by_cases hk : k0 = k
    · subst hk
      rw [dictGet, List.find?_cons_of_pos _ (by simp)] at h
      simp at h
      subst h
      by_cases hc : (dictContains u k0 && k0 != "ts") = true
      · rw [if_pos hc]
        simp only [match_units, List.map_cons]
        rw [if_pos hc]
        rw [dictGet, List.find?_cons_of_pos _ (by simp)]
        rfl
      · rw [if_neg hc]
        simp only [match_units, List.map_cons]
        rw [if_neg hc]
        rw [dictGet, List.find?_cons_of_pos _ (by simp)]
        rfl
    · rw [dictGet, List.find?_cons_of_neg _ (by simp [hk])] at h
      have ih2 := ih v h
      by_cases hc : (dictContains u k0 && k0 != "ts") = true
      · simp only [match_units, List.map_cons]
        rw [if_pos hc]
        rw [dictGet, List.find?_cons_of_neg _ (by simp [hk])]
        exact ih2
      · simp only [match_units, List.map_cons]
        rw [if_neg hc]
        rw [dictGet, List.find?_cons_of_neg _ (by simp [hk])]
        exact ih2

/-- Sample conditions record for concrete scenarios. -/
def sample_conditions_item : ConditionsItem :=
  { station_id := 123, station_Name := "Test Station",
    ts := { wall := 1741271702, tz := some 0 }, pressure := "995.3",
    temperature := "25.6", humidity := 88, wind_average := "0.0",
    max_wind := "3.2", wind_direction := 180, total_rain := "0.0",
    FDI := 25, solar_radiation := "0.0" }

/-- Sample conditions unit table for concrete scenarios. -/
def sample_units : Units :=
  { local_time_last_update := "SAST", ts := "UTC", temperature := "°C",
    humidity := "%", pressure := "mb", wind_average := "Kp/h",
    wind_direction := "360 points", total_rain := "mm",
    solar_radiation := " W/M2", FDI := "" }

/-- Sample conditions response for concrete scenarios. -/
def sample_conditions_response : ConditionsResponse :=
  { conditions := [sample_conditions_item], units := sample_units,
    generated_at := { wall := 1741271702, tz := some 0 },
    code := 200, message := "success" }

/-- C10: a field is unit-decorated exactly when its key appears in the
units table and is not `ts`; in particular `station_id`, `station_Name`
and `max_wind` of a conditions record and `station_id` and `Date` of a
daily summary pass through with their original values, and even though the
conditions units table always contains a `ts` entry, `ts` is never
stringified — the transformed observation's `recorded_at` carries the
original datetime and `additional` has no `ts` key. -/
theorem c10_unit_decoration_iff :
    (∀ (d u : PyDict) (k : String) (v : PyVal), dictGet d k = some v →
      dictGet (match_units d u) k =
        if dictContains u k && k != "ts" then
          some (.pstr (pyStr v ++ " " ++ pyStr (dictGetD u k (.pstr ""))))
        else some v) ∧
    (∀ u : Units, dictContains u.toDict "ts" = true) ∧
    (∀ (c : ConditionsItem) (u : Units),
      dictGet (match_units c.toDict u.toDict) "station_id" = some (.pint c.station_id) ∧
      dictGet (match_units c.toDict u.toDict) "station_Name" = some (.pstr c.station_Name) ∧
      dictGet (match_units c.toDict u.toDict) "max_wind" = some (.pfloat c.max_wind) ∧
      dictGet (match_units c.toDict u.toDict) "ts" = some (.pdt c.ts)) ∧
    (∀ (s : DailySummaryItem) (u : DailySummaryUnits),
      dictGet (match_units s.toDict u.toDict) "station_id" = some (.pint s.station_id) ∧
      dictGet (match_units s.toDict u.toDict) "Date" = some (.pstr s.Date)) ∧
    (∀ (station : Station) (resp : ConditionsResponse) (j : Nat) (item : ConditionsItem),
      resp.conditions[j]? = some item →
      ∃ obs, (transform station resp)[j]? = some obs ∧
        obs.recorded_at = .pdt item.ts ∧
        dictContains obs.additional "ts" = false) := by
  refine ⟨fun d u k v h => match_units_get u k d v h, ?_, ?_, ?_, ?_⟩
  · intro u
    rfl
  · intro c u
    exact ⟨rfl, rfl, rfl, rfl⟩
  · intro s u
    exact ⟨rfl, rfl⟩
  · intro station resp j item h
    refine ⟨{ source_name := station.Station_Name
              source := station.Station_ID
              type := "stationary-object"
              subtype := "weather_station"
              recorded_at := .pdt item.ts
              location_lat := station.latitude
              location_lon := station.longitude
              additional := ("station_height", .pfloat station.height) ::
                dictErase (match_units item.toDict resp.units.toDict) "ts" }, ?_, rfl, rfl⟩
    simp [transform, List.getElem?_map, h, match_units_conditions_ts]

/-- Witness for C10 at concrete inputs: an in-table non-`ts` key is
decorated, and the transformed sample observation keeps its datetime out of
`additional`. -/
theorem c10_unit_decoration_iff_witness :
    dictGet (match_units [("temperature", .pfloat "25.6")] [("temperature", .pstr "°C")])
      "temperature" =
      (if dictContains [("temperature", .pstr "°C")] "temperature" && "temperature" != "ts" then
        some (.pstr (pyStr (.pfloat "25.6") ++ " " ++
          pyStr (dictGetD [("temperature", .pstr "°C")] "temperature" (.pstr ""))))
      else some (.pfloat "25.6")) ∧
    (∃ obs, (transform sample_station sample_conditions_response)[0]? = some obs ∧
      obs.recorded_at = .pdt sample_conditions_item.ts ∧
      dictContains obs.additional "ts" = false) := by
  constructor
  · exact c10_unit_decoration_iff.1 [("temperature", .pfloat "25.6")]
      [("temperature", .pstr "°C")] "temperature" (.pfloat "25.6") rfl
  · exact c10_unit_decoration_iff.2.2.2.2 sample_station sample_conditions_response 0
      sample_conditions_item rfl

end VitalWeather
